import Mathlib

set_option allowUnsafeReducibility true
attribute [semireducible] Rat.add Rat.mul Rat.sub Rat.div Rat.neg Rat.inv Rat.normalize Rat.divInt Rat.blt Rat.ofScientific

/-!
Shallow embedding of the content trust verification pipeline of the
repository (src/src/services/enhanced_synthesis_engine.py and
src/src/services/ai_verification_service.py).  Text is modelled as
List Char; Python floats are modelled as exact rationals; fallible
extractor calls inside the try/except of verify_content_item are
modelled with Except-valued extractor parameters.
-/

namespace ProjV81

/-! ### Text utilities (Python str.lower, str.strip, substring test, str.split) -/

/-- ASCII lowering, modelling Python str.lower on the ASCII texts used here. -/
def lowerT (s : List Char) : List Char := s.map Char.toLower

/-- The first list is a leading segment of the second (used for substring search). -/
def startSeg : List Char → List Char → Bool
  | [], _ => true
  | _ :: _, [] => false
  | a :: ps, b :: ss => a == b && startSeg ps ss

/-- Python `pat in hay` substring membership test. -/
def occursT (p : List Char) : List Char → Bool
  | [] => startSeg p []
  | c :: rest => startSeg p (c :: rest) || occursT p rest

/-- Python str.strip: drop whitespace at both ends. -/
def trimT (s : List Char) : List Char :=
  ((s.dropWhile Char.isWhitespace).reverse.dropWhile Char.isWhitespace).reverse

/-- Helper for wordCountT; the flag records whether we are inside a word. -/
def wordCountAux : Bool → List Char → Nat
  | _, [] => 0
  | inw, c :: cs =>
    if c.isWhitespace then wordCountAux false cs
    else (if inw then 0 else 1) + wordCountAux true cs

/-- Number of whitespace-separated words, modelling len(text.split()). -/
def wordCountT (s : List Char) : Nat := wordCountAux false s

/-! ### Data model -/

/-- An item record submitted for verification; text-bearing fields are optional,
mirroring dict lookups with Python truthiness. -/
structure ContentItem where
  id : Option String
  content : Option String
  text : Option String
  description : Option String
  title : Option String
  summary : Option String
  source : Option String
deriving DecidableEq

/-- Result of BasicSentimentAnalyzer.analyze_sentiment. -/
structure SentimentResult where
  polarity : ℚ
  classification : String
  confidence : ℚ
deriving DecidableEq

/-- Result of BasicBiasDetector.detect_bias_disinformation.  On the empty-text
branch the source dict carries only overall_risk and the two lists; the other
fields are modelled as 0 / 0.5 and are never read on that branch. -/
structure BiasResult where
  bias_score : ℚ
  disinformation_score : ℚ
  overall_risk : ℚ
  detected_bias_keywords : List String
  detected_disinformation_patterns : List String
  confidence : ℚ
deriving DecidableEq

/-- Result of BasicContextualAnalyzer.analyze_context. -/
structure ContextualResult where
  contextual_confidence : ℚ
  consistency_score : ℚ
  source_reliability_score : ℚ
  temporal_coherence_score : ℚ
  context_flags : List String
deriving DecidableEq

/-- A configured rule: the condition string is stored but never evaluated by
BasicRuleEngine. -/
structure RuleAction where
  status : String
  reason : String
deriving DecidableEq

structure Rule where
  name : String
  condition : String
  action : RuleAction
deriving DecidableEq

/-- The thresholds block of _load_verifier_config. -/
structure Thresholds where
  approval : ℚ
  rejection : ℚ
  high_confidence : ℚ
  low_confidence : ℚ
  bias_high_risk : ℚ
deriving DecidableEq

/-- The parts of the verifier configuration the pipeline reads. -/
structure VerifierConfig where
  thresholds : Thresholds
  bias_keywords : List String
  disinformation_patterns : List String
  rules : List Rule
deriving DecidableEq

/-- _load_verifier_config. -/
def default_verifier_config : VerifierConfig :=
  { thresholds :=
      { approval := 0.75
        rejection := 0.35
        high_confidence := 0.85
        low_confidence := 0.5
        bias_high_risk := 0.7 }
    bias_keywords := ["sempre", "nunca", "todos", "ninguém", "obviamente", "claramente"]
    disinformation_patterns := ["fake news", "notícia falsa", "teoria da conspiração"]
    rules :=
      [ { name := "high_confidence_approval"
          condition := "overall_confidence >= 0.85"
          action := { status := "approved", reason := "Alta confiança no conteúdo" } },
        { name := "high_risk_bias_rejection"
          condition := "overall_risk >= 0.7"
          action := { status := "rejected", reason := "Alto risco de viés/desinformação" } } ] }

/-! ### Signal extractors -/

def positive_words : List String :=
  ["bom", "ótimo", "excelente", "maravilhoso", "perfeito", "incrível", "fantástico"]

def negative_words : List String :=
  ["ruim", "péssimo", "terrível", "horrível", "problema", "erro", "falha"]

/-- BasicSentimentAnalyzer.analyze_sentiment. -/
def analyze_sentiment (text : List Char) : SentimentResult :=
  if text = [] then { polarity := 0, classification := "neutral", confidence := 0.5 }
  else
    let text_lower := lowerT text
    let positive_count := (positive_words.filter (fun w => occursT w.data text_lower)).length
    let negative_count := (negative_words.filter (fun w => occursT w.data text_lower)).length
    let total_words := wordCountT text_lower
    if total_words = 0 then { polarity := 0, classification := "neutral", confidence := 0.5 }
    else
      let polarity : ℚ := ((positive_count : ℚ) - (negative_count : ℚ)) / ((max total_words 1 : ℕ) : ℚ)
      let classification :=
        if polarity > 0.05 then "positive"
        else if polarity < -0.05 then "negative"
        else "neutral"
      { polarity := polarity
        classification := classification
        confidence := min (|polarity| * 5 + 0.3) 1 }

/-- BasicBiasDetector.detect_bias_disinformation; the keyword and pattern
lists come from the configuration, as in the source class. -/
def detect_bias_disinformation (cfg : VerifierConfig) (text : List Char) : BiasResult :=
  if text = [] then
    { bias_score := 0, disinformation_score := 0, overall_risk := 0
      detected_bias_keywords := [], detected_disinformation_patterns := []
      confidence := 0.5 }
  else
    let text_lower := lowerT text
    let detected_bias := cfg.bias_keywords.filter (fun kw => occursT kw.data text_lower)
    let detected_disinfo := cfg.disinformation_patterns.filter (fun pat => occursT pat.data text_lower)
    let bias_score : ℚ := min ((detected_bias.length : ℚ) * 0.1) 1
    let disinfo_score : ℚ := min ((detected_disinfo.length : ℚ) * 0.2) 1
    { bias_score := bias_score
      disinformation_score := disinfo_score
      overall_risk := bias_score * 0.4 + disinfo_score * 0.6
      detected_bias_keywords := detected_bias
      detected_disinformation_patterns := detected_disinfo
      confidence := if detected_bias ≠ [] ∨ detected_disinfo ≠ [] then 0.7 else 0.5 }

/-- BasicContextualAnalyzer.analyze_context: constants, independent of both
arguments (the massive_data context is modelled opaquely). -/
def analyze_context (item_data : ContentItem) (massive_data : Option Unit) : ContextualResult :=
  let consistency_score : ℚ := 0.7
  let source_reliability : ℚ := 0.6
  let temporal_coherence : ℚ := 0.7
  { contextual_confidence :=
      consistency_score * 0.4 + source_reliability * 0.4 + temporal_coherence * 0.2
    consistency_score := consistency_score
    source_reliability_score := source_reliability
    temporal_coherence_score := temporal_coherence
    context_flags := [] }

/-! ### Rule engine, thresholds, final decision -/

/-- The three signal results assembled into analysis_result before rules run. -/
structure AnalysisSignals where
  sentiment_analysis : SentimentResult
  bias_disinformation_analysis : BiasResult
  contextual_analysis : ContextualResult
deriving DecidableEq

/-- Output dict of BasicRuleEngine.apply_rules; status is optional so that a
no-match sentinel (a dict without a status) can also be represented, as
_make_final_decision guards on it. -/
structure RuleResult where
  status : Option String
  reason : String
  triggered_rules : List String
deriving DecidableEq

structure BasicRuleEngine where
  rules : List Rule
deriving DecidableEq

/-- BasicRuleEngine.apply_rules: reads only bias overall_risk; the configured
rule list e.rules is never consulted, exactly as in the source. -/
def BasicRuleEngine.apply_rules (e : BasicRuleEngine) (analysis_result : AnalysisSignals) :
    RuleResult :=
  let overall_risk := analysis_result.bias_disinformation_analysis.overall_risk
  if 0.7 ≤ overall_risk then
    { status := some "rejected"
      reason := "Alto risco de viés/desinformação"
      triggered_rules := ["high_risk_bias_rejection"] }
  else
    { status := some "approved"
      reason := "Análise padrão aprovada"
      triggered_rules := [] }

/-- BasicConfidenceThresholds.should_approve. -/
def should_approve (t : Thresholds) (confidence : ℚ) : Bool :=
  decide (t.approval ≤ confidence)

/-- BasicConfidenceThresholds.should_reject. -/
def should_reject (t : Thresholds) (confidence : ℚ) : Bool :=
  decide (confidence ≤ t.rejection)

/-- The per-signal weighted terms recorded as confidence_breakdown. -/
structure Breakdown where
  sentiment_contribution : ℚ
  bias_contribution : ℚ
  contextual_contribution : ℚ
deriving DecidableEq

/-- The ai_review dict: final decision attached to an item.  The
insufficient_content and error fields model the flags the source sets on the
corresponding short-circuit results. -/
structure Decision where
  status : String
  reason : String
  final_confidence : ℚ
  confidence_breakdown : Option Breakdown
  insufficient_content : Bool
  error : Bool
deriving DecidableEq

/-- _make_final_decision. -/
def make_final_decision (cfg : VerifierConfig) (analysis_result : AnalysisSignals)
    (rule_result : RuleResult) : Decision :=
  let sentiment := analysis_result.sentiment_analysis
  let bias := analysis_result.bias_disinformation_analysis
  let contextual := analysis_result.contextual_analysis
  let final_confidence : ℚ :=
    sentiment.confidence * 0.2 + (1 - bias.overall_risk) * 0.3 +
      contextual.contextual_confidence * 0.5
  let sr : String × String :=
    if rule_result.status = some "approved" ∨ rule_result.status = some "rejected" then
      (rule_result.status.getD "", rule_result.reason)
    else if should_approve cfg.thresholds final_confidence then
      ("approved", "Aprovado com base na análise combinada")
    else if should_reject cfg.thresholds final_confidence then
      ("rejected", "Rejeitado com base na análise combinada")
    else
      ("rejected", "Rejeitado por ambiguidade - política de segurança")
  { status := sr.1
    reason := sr.2
    final_confidence := final_confidence
    confidence_breakdown := some
      { sentiment_contribution := sentiment.confidence * 0.2
        bias_contribution := (1 - bias.overall_risk) * 0.3
        contextual_contribution := contextual.contextual_confidence * 0.5 }
    insufficient_content := false
    error := false }

/-! ### Text normalisation and per-item verification -/

/-- One optional field, filtered by Python truthiness and then stripped,
as in the loop of _extract_text_content. -/
def fieldPart (o : Option String) : Option (List Char) :=
  match o with
  | none => none
  | some s =>
    if s.data = [] then none
    else
      let c := trimT s.data
      if c = [] then none else some c

/-- _extract_text_content: non-empty stripped values of the priority-ordered
fields, space-joined and stripped. -/
def extract_text_content (item_data : ContentItem) : List Char :=
  trimT (List.intercalate [' ']
    (([item_data.content, item_data.text, item_data.description,
       item_data.title, item_data.summary]).filterMap fieldPart))

/-- The full analysis_result dict returned for one item. -/
structure ItemVerification where
  item_id : String
  sentiment_analysis : Option SentimentResult
  bias_disinformation_analysis : Option BiasResult
  contextual_analysis : Option ContextualResult
  ai_review : Decision
deriving DecidableEq

/-- _create_insufficient_content_result. -/
def create_insufficient_content_result (item_data : ContentItem) : ItemVerification :=
  { item_id := item_data.id.getD "sem_id"
    sentiment_analysis := none
    bias_disinformation_analysis := none
    contextual_analysis := none
    ai_review :=
      { status := "rejected"
        reason := "Conteúdo textual insuficiente"
        final_confidence := 0
        confidence_breakdown := none
        insufficient_content := true
        error := false } }

/-- _create_error_result. -/
def create_error_result (item_data : ContentItem) (error_message : String) : ItemVerification :=
  { item_id := item_data.id.getD "sem_id"
    sentiment_analysis := none
    bias_disinformation_analysis := none
    contextual_analysis := none
    ai_review :=
      { status := "rejected"
        reason := "Erro: " ++ error_message
        final_confidence := 0
        confidence_breakdown := none
        insufficient_content := false
        error := true } }

/-- verify_content_item with the extractor calls inside its try block made
explicit as Except-valued parameters: a raised exception anywhere in the
block produces _create_error_result with the exception message. -/
def verify_content_item_x (cfg : VerifierConfig)
    (sentA : List Char → Except String SentimentResult)
    (biasA : List Char → Except String BiasResult)
    (ctxA : ContentItem → Option Unit → Except String ContextualResult)
    (item_data : ContentItem) (massive_data : Option Unit) : ItemVerification :=
  let text_content := extract_text_content item_data
  if text_content = [] ∨ (trimT text_content).length < 5 then
    create_insufficient_content_result item_data
  else
    match sentA text_content with
    | Except.error e => create_error_result item_data e
    | Except.ok sentiment_result =>
      match biasA text_content with
      | Except.error e => create_error_result item_data e
      | Except.ok bias_result =>
        match ctxA item_data massive_data with
        | Except.error e => create_error_result item_data e
        | Except.ok contextual_result =>
          let analysis_result : AnalysisSignals :=
            { sentiment_analysis := sentiment_result
              bias_disinformation_analysis := bias_result
              contextual_analysis := contextual_result }
          let rule_result := BasicRuleEngine.apply_rules ⟨cfg.rules⟩ analysis_result
          let final_decision := make_final_decision cfg analysis_result rule_result
          { item_id := item_data.id.getD "sem_id"
            sentiment_analysis := some sentiment_result
            bias_disinformation_analysis := some bias_result
            contextual_analysis := some contextual_result
            ai_review := final_decision }

/-- verify_content_item with the engine's actual (total) extractors. -/
def verify_content_item (cfg : VerifierConfig) (item_data : ContentItem)
    (massive_data : Option Unit) : ItemVerification :=
  verify_content_item_x cfg
    (fun t => Except.ok (analyze_sentiment t))
    (fun t => Except.ok (detect_bias_disinformation cfg t))
    (fun i m => Except.ok (analyze_context i m))
    item_data massive_data

/-! ### Batch verification (_verify_all_data) -/

/-- One dados_web record as read by _verify_all_data. -/
structure WebItem where
  titulo : String
  url : String
  relevancia : String
deriving DecidableEq

/-- The item_data dict _verify_all_data builds for web item number idx. -/
def toVerifItem (idx : Nat) (w : WebItem) : ContentItem :=
  { id := some ("web_" ++ toString (idx + 1))
    content := some w.titulo
    text := none
    description := some w.relevancia
    title := some w.titulo
    summary := none
    source := some w.url }

/-- The loop of _verify_all_data: split the web items into approved and
rejected lists according to the ai_review status of their verification. -/
def verifyAllAux (cfg : VerifierConfig) : Nat → List WebItem → List WebItem × List WebItem
  | _, [] => ([], [])
  | idx, w :: ws =>
    let r := verify_content_item cfg (toVerifItem idx w) none
    let rest := verifyAllAux cfg (idx + 1) ws
    if r.ai_review.status = "approved" then (w :: rest.1, rest.2)
    else (rest.1, w :: rest.2)

/-- Counts returned by _verify_all_data (approved/rejected partition plus
totals; there is no separate error tally in the source). -/
structure VerifyAllResult where
  total_items : Nat
  approved_items : Nat
  rejected_items : Nat
  approved_data : List WebItem
  rejected_data : List WebItem
deriving DecidableEq

/-- _verify_all_data over the dados_web list. -/
def verify_all_data (cfg : VerifierConfig) (dados_web : List WebItem) : VerifyAllResult :=
  let p := verifyAllAux cfg 0 dados_web
  { total_items := dados_web.length
    approved_items := p.1.length
    rejected_items := p.2.length
    approved_data := p.1
    rejected_data := p.2 }

/-! ### Issue compilation (_identify_main_issues of AIVerificationService) -/

/-- One entry of the main_issues list; the formatted reason string of a
high-bias entry is modelled by the risk value it interpolates. -/
inductive Issue where
  | rejection (item_id : String) (reason : String) (confidence : ℚ)
  | high_bias_risk (item_id : String) (overall_risk : ℚ) (details : List String)
deriving DecidableEq

/-- bias_disinformation_analysis.get('overall_risk', 0) on a result record. -/
def riskOf (r : ItemVerification) : ℚ :=
  (r.bias_disinformation_analysis.map (fun b => b.overall_risk)).getD 0

/-- bias_disinformation_analysis.get('detected_bias_keywords', []) likewise. -/
def detectedOf (r : ItemVerification) : List String :=
  (r.bias_disinformation_analysis.map (fun b => b.detected_bias_keywords)).getD []

/-- The issues one result contributes, in the order the loop body appends
them: its rejection entry (if rejected) and then its high-bias entry
(if overall risk exceeds 0.6). -/
def item_issues (r : ItemVerification) : List Issue :=
  (if r.ai_review.status = "rejected" then
    [Issue.rejection r.item_id r.ai_review.reason r.ai_review.final_confidence]
  else []) ++
  (if 0.6 < riskOf r then
    [Issue.high_bias_risk r.item_id (riskOf r) (detectedOf r)]
  else [])

/-- The full issue list accumulated over the results, in result order. -/
def issuesList : List ItemVerification → List Issue
  | [] => []
  | r :: rs => item_issues r ++ issuesList rs

/-- _identify_main_issues: accumulate per-result issues and keep the first 10. -/
def identify_main_issues (results : List ItemVerification) : List Issue :=
  (issuesList results).take 10

/-- Whether every rejection entry comes before every high-bias entry
(the ranking the claim asserts for the compiled list). -/
def rejectionsRankedFirst : List Issue → Bool
  | [] => true
  | Issue.rejection _ _ _ :: rest => rejectionsRankedFirst rest
  | Issue.high_bias_risk _ _ _ :: rest =>
      rest.all (fun i => match i with
        | Issue.rejection _ _ _ => false
        | Issue.high_bias_risk _ _ _ => true) && rejectionsRankedFirst rest

/-! ### Helper lemmas shared by the claim theorems -/

theorem not_short_of_long {item : ContentItem}
    (h : 5 ≤ (trimT (extract_text_content item)).length) :
    ¬(extract_text_content item = [] ∨ (trimT (extract_text_content item)).length < 5) := by
  rintro (he | hl)
  · rw [he] at h
    exact absurd h (by decide)
  · omega

theorem verify_content_item_eq_of_long (cfg : VerifierConfig) (item : ContentItem)
    (m : Option Unit) (h : 5 ≤ (trimT (extract_text_content item)).length) :
    verify_content_item cfg item m =
      { item_id := item.id.getD "sem_id"
        sentiment_analysis := some (analyze_sentiment (extract_text_content item))
        bias_disinformation_analysis :=
          some (detect_bias_disinformation cfg (extract_text_content item))
        contextual_analysis := some (analyze_context item m)
        ai_review := make_final_decision cfg
          ⟨analyze_sentiment (extract_text_content item),
           detect_bias_disinformation cfg (extract_text_content item),
           analyze_context item m⟩
          (BasicRuleEngine.apply_rules ⟨cfg.rules⟩
            ⟨analyze_sentiment (extract_text_content item),
             detect_bias_disinformation cfg (extract_text_content item),
             analyze_context item m⟩) } := by
  unfold verify_content_item verify_content_item_x
  rw [if_neg (not_short_of_long h)]

theorem make_final_decision_confidence (cfg : VerifierConfig) (a : AnalysisSignals)
    (rr : RuleResult) :
    (make_final_decision cfg a rr).final_confidence =
      a.sentiment_analysis.confidence * 0.2 +
        (1 - a.bias_disinformation_analysis.overall_risk) * 0.3 +
        a.contextual_analysis.contextual_confidence * 0.5 := rfl

theorem make_final_decision_breakdown (cfg : VerifierConfig) (a : AnalysisSignals)
    (rr : RuleResult) :
    (make_final_decision cfg a rr).confidence_breakdown =
      some ⟨a.sentiment_analysis.confidence * 0.2,
            (1 - a.bias_disinformation_analysis.overall_risk) * 0.3,
            a.contextual_analysis.contextual_confidence * 0.5⟩ := rfl

theorem make_final_decision_rule (cfg : VerifierConfig) (a : AnalysisSignals) (rr : RuleResult)
    (h : rr.status = some "approved" ∨ rr.status = some "rejected") :
    (make_final_decision cfg a rr).status = rr.status.getD "" ∧
      (make_final_decision cfg a rr).reason = rr.reason := by
  simp only [make_final_decision]
  rw [if_pos h]
  exact ⟨rfl, rfl⟩

theorem apply_rules_eq (e : BasicRuleEngine) (a : AnalysisSignals) :
    BasicRuleEngine.apply_rules e a =
      if 0.7 ≤ a.bias_disinformation_analysis.overall_risk then
        ⟨some "rejected", "Alto risco de viés/desinformação", ["high_risk_bias_rejection"]⟩
      else ⟨some "approved", "Análise padrão aprovada", []⟩ := rfl

theorem decision_of_signals (cfg : VerifierConfig) (a : AnalysisSignals) :
    (make_final_decision cfg a (BasicRuleEngine.apply_rules ⟨cfg.rules⟩ a)).status =
      (if 0.7 ≤ a.bias_disinformation_analysis.overall_risk then "rejected" else "approved") ∧
    (make_final_decision cfg a (BasicRuleEngine.apply_rules ⟨cfg.rules⟩ a)).reason =
      (if 0.7 ≤ a.bias_disinformation_analysis.overall_risk then
        "Alto risco de viés/desinformação" else "Análise padrão aprovada") := by
  by_cases hr : (0.7:ℚ) ≤ a.bias_disinformation_analysis.overall_risk
  · have he : BasicRuleEngine.apply_rules ⟨cfg.rules⟩ a =
        ⟨some "rejected", "Alto risco de viés/desinformação", ["high_risk_bias_rejection"]⟩ := by
      rw [apply_rules_eq, if_pos hr]
    rw [he, if_pos hr, if_pos hr]
    exact make_final_decision_rule cfg a _ (Or.inr rfl)
  · have he : BasicRuleEngine.apply_rules ⟨cfg.rules⟩ a =
        ⟨some "approved", "Análise padrão aprovada", []⟩ := by
      rw [apply_rules_eq, if_neg hr]
    rw [he, if_neg hr, if_neg hr]
    exact make_final_decision_rule cfg a _ (Or.inl rfl)

theorem verify_decision_char (cfg : VerifierConfig) (item : ContentItem) (m : Option Unit)
    (h : 5 ≤ (trimT (extract_text_content item)).length) :
    (verify_content_item cfg item m).ai_review.status =
      (if 0.7 ≤ (detect_bias_disinformation cfg (extract_text_content item)).overall_risk then
        "rejected" else "approved") ∧
    (verify_content_item cfg item m).ai_review.reason =
      (if 0.7 ≤ (detect_bias_disinformation cfg (extract_text_content item)).overall_risk then
        "Alto risco de viés/desinformação" else "Análise padrão aprovada") := by
  rw [verify_content_item_eq_of_long cfg item m h]
  exact decision_of_signals cfg
    ⟨analyze_sentiment (extract_text_content item),
     detect_bias_disinformation cfg (extract_text_content item),
     analyze_context item m⟩

theorem min_unit_bounds (b d : ℚ) (hb : 0 ≤ b) (hd : 0 ≤ d) :
    0 ≤ min b 1 * 0.4 + min d 1 * 0.6 ∧ min b 1 * 0.4 + min d 1 * 0.6 ≤ 1 := by
  have h1 : (0:ℚ) ≤ min b 1 := le_min hb (by norm_num)
  have h2 : min b 1 ≤ 1 := min_le_right _ _
  have h3 : (0:ℚ) ≤ min d 1 := le_min hd (by norm_num)
  have h4 : min d 1 ≤ 1 := min_le_right _ _
  constructor <;> nlinarith

theorem analyze_sentiment_confidence_bounds (t : List Char) :
    0 ≤ (analyze_sentiment t).confidence ∧ (analyze_sentiment t).confidence ≤ 1 := by
  unfold analyze_sentiment
  split
  · norm_num
  · dsimp only
    split
    · norm_num
    · dsimp only
      refine ⟨le_min (by positivity) (by norm_num), min_le_right _ _⟩

theorem overall_risk_bounds (cfg : VerifierConfig) (t : List Char) :
    0 ≤ (detect_bias_disinformation cfg t).overall_risk ∧
      (detect_bias_disinformation cfg t).overall_risk ≤ 1 := by
  unfold detect_bias_disinformation
  split
  · norm_num
  · dsimp only
    exact min_unit_bounds _ _ (by positivity) (by positivity)

/-! ### Claim theorems -/

/-- C1: when no rule decides an item (the rule result carries neither an
approved nor a rejected status), _make_final_decision falls through to
threshold evaluation with the default thresholds: composite confidence at
least 0.75 yields status approved; at most 0.35 yields status rejected; and
strictly between 0.35 and 0.75 it yields status rejected with the
ambiguous-default-reject reason, so uncertainty never defaults to approval. -/
theorem threshold_fallback_C1 (a : AnalysisSignals) (rr : RuleResult)
    (h1 : rr.status ≠ some "approved") (h2 : rr.status ≠ some "rejected") :
    ((0.75:ℚ) ≤ (make_final_decision default_verifier_config a rr).final_confidence →
      (make_final_decision default_verifier_config a rr).status = "approved") ∧
    ((make_final_decision default_verifier_config a rr).final_confidence ≤ (0.35:ℚ) →
      (make_final_decision default_verifier_config a rr).status = "rejected") ∧
    ((0.35:ℚ) < (make_final_decision default_verifier_config a rr).final_confidence →
      (make_final_decision default_verifier_config a rr).final_confidence < (0.75:ℚ) →
      (make_final_decision default_verifier_config a rr).status = "rejected" ∧
      (make_final_decision default_verifier_config a rr).reason =
        "Rejeitado por ambiguidade - política de segurança") := by
  have hc : ¬(rr.status = some "approved" ∨ rr.status = some "rejected") := by
    rintro (h | h)
    · exact h1 h
    · exact h2 h
  have hst : (make_final_decision default_verifier_config a rr).status =
      (if (0.75:ℚ) ≤ (make_final_decision default_verifier_config a rr).final_confidence then
        "approved"
      else if (make_final_decision default_verifier_config a rr).final_confidence ≤ (0.35:ℚ) then
        "rejected"
      else "rejected") := by
    simp only [make_final_decision]
    rw [if_neg hc]
    simp only [should_approve, should_reject, default_verifier_config, decide_eq_true_eq]
    split_ifs <;> rfl
  have hre : (make_final_decision default_verifier_config a rr).reason =
      (if (0.75:ℚ) ≤ (make_final_decision default_verifier_config a rr).final_confidence then
        "Aprovado com base na análise combinada"
      else if (make_final_decision default_verifier_config a rr).final_confidence ≤ (0.35:ℚ) then
        "Rejeitado com base na análise combinada"
      else "Rejeitado por ambiguidade - política de segurança") := by
    simp only [make_final_decision]
    rw [if_neg hc]
    simp only [should_approve, should_reject, default_verifier_config, decide_eq_true_eq]
    split_ifs <;> rfl
  refine ⟨fun hge => ?_, fun hle => ?_, fun hgt hlt => ?_⟩
  · rw [hst, if_pos hge]
  · rw [hst, if_neg (by linarith), if_pos hle]
  · rw [hst, hre, if_neg (by linarith), if_neg (by linarith), if_neg (by linarith),
      if_neg (by linarith)]
    exact ⟨rfl, rfl⟩

/-- C1 witness: a composite confidence of exactly 0.5 with no rule status is
rejected with the ambiguity reason. -/
theorem threshold_fallback_C1_witness :
    (make_final_decision default_verifier_config
      ⟨⟨0, "neutral", 0.5⟩, ⟨0, 0, 0.5, [], [], 0.5⟩, ⟨0.5, 0.5, 0.5, 0.5, []⟩⟩
      ⟨none, "", []⟩).status = "rejected" ∧
    (make_final_decision default_verifier_config
      ⟨⟨0, "neutral", 0.5⟩, ⟨0, 0, 0.5, [], [], 0.5⟩, ⟨0.5, 0.5, 0.5, 0.5, []⟩⟩
      ⟨none, "", []⟩).reason = "Rejeitado por ambiguidade - política de segurança" :=
  (threshold_fallback_C1
    ⟨⟨0, "neutral", 0.5⟩, ⟨0, 0, 0.5, [], [], 0.5⟩, ⟨0.5, 0.5, 0.5, 0.5, []⟩⟩
    ⟨none, "", []⟩ (by decide) (by decide)).2.2 (by decide) (by decide)

/-- C2 counterexample: a concrete analysis satisfying both the
high-confidence-approval condition (composite confidence 0.99 at least 0.85)
and the high-risk condition (bias overall risk 0.7) is rejected, not
approved, under the default configuration, in which high_confidence_approval
is declared first. -/
theorem rule_precedence_C2_counterexample :
    (0.85:ℚ) ≤ (make_final_decision default_verifier_config
      ⟨⟨0, "neutral", 2⟩, ⟨1, 0.5, 0.7, [], [], 0.7⟩, ⟨1, 0.7, 0.6, 0.7, []⟩⟩
      (BasicRuleEngine.apply_rules ⟨default_verifier_config.rules⟩
        ⟨⟨0, "neutral", 2⟩, ⟨1, 0.5, 0.7, [], [], 0.7⟩, ⟨1, 0.7, 0.6, 0.7, []⟩⟩)).final_confidence ∧
    (0.7:ℚ) ≤ (⟨⟨0, "neutral", 2⟩, ⟨1, 0.5, 0.7, [], [], 0.7⟩, ⟨1, 0.7, 0.6, 0.7, []⟩⟩ :
      AnalysisSignals).bias_disinformation_analysis.overall_risk ∧
    (default_verifier_config.rules.map Rule.name) =
      ["high_confidence_approval", "high_risk_bias_rejection"] ∧
    (make_final_decision default_verifier_config
      ⟨⟨0, "neutral", 2⟩, ⟨1, 0.5, 0.7, [], [], 0.7⟩, ⟨1, 0.7, 0.6, 0.7, []⟩⟩
      (BasicRuleEngine.apply_rules ⟨default_verifier_config.rules⟩
        ⟨⟨0, "neutral", 2⟩, ⟨1, 0.5, 0.7, [], [], 0.7⟩, ⟨1, 0.7, 0.6, 0.7, []⟩⟩)).status =
      "rejected" := by
  decide

/-- C2 amended: BasicRuleEngine.apply_rules ignores the declared rule list
entirely — its output is identical for any two configured rule lists, it
rejects exactly when bias overall risk is at least 0.7 (with the high-risk
reason) and approves otherwise, it never produces the first-declared
high_confidence_approval action, and an analysis whose bias overall risk is
at least 0.7 is rejected regardless of its composite confidence. -/
theorem rule_engine_ignores_rules_C2 :
    (∀ (rs1 rs2 : List Rule) (a : AnalysisSignals),
      BasicRuleEngine.apply_rules ⟨rs1⟩ a = BasicRuleEngine.apply_rules ⟨rs2⟩ a) ∧
    (∀ (rs : List Rule) (a : AnalysisSignals),
      (BasicRuleEngine.apply_rules ⟨rs⟩ a).status = some "rejected" ↔
        (0.7:ℚ) ≤ a.bias_disinformation_analysis.overall_risk) ∧
    (∀ (rs : List Rule) (a : AnalysisSignals),
      (BasicRuleEngine.apply_rules ⟨rs⟩ a).reason ≠ "Alta confiança no conteúdo") ∧
    (∀ (cfg : VerifierConfig) (a : AnalysisSignals),
      (0.7:ℚ) ≤ a.bias_disinformation_analysis.overall_risk →
      (make_final_decision cfg a (BasicRuleEngine.apply_rules ⟨cfg.rules⟩ a)).status =
        "rejected") := by
  refine ⟨fun rs1 rs2 a => rfl, fun rs a => ?_, fun rs a => ?_, fun cfg a h => ?_⟩
  · rw [apply_rules_eq]
    split_ifs with h
    · simpa using h
    · simpa using h
  · rw [apply_rules_eq]
    split_ifs <;> decide
  · rw [(decision_of_signals cfg a).1, if_pos h]

/-- C2 amended witness: a concrete analysis with bias overall risk 0.76 is
rejected by the decision pipeline. -/
theorem rule_engine_ignores_rules_C2_witness :
    (make_final_decision default_verifier_config
      ⟨⟨0, "neutral", 1⟩, ⟨0.4, 1, 0.76, [], [], 0.7⟩, ⟨0.66, 0.7, 0.6, 0.7, []⟩⟩
      (BasicRuleEngine.apply_rules ⟨default_verifier_config.rules⟩
        ⟨⟨0, "neutral", 1⟩, ⟨0.4, 1, 0.76, [], [], 0.7⟩, ⟨0.66, 0.7, 0.6, 0.7, []⟩⟩)).status =
      "rejected" :=
  rule_engine_ignores_rules_C2.2.2.2 default_verifier_config
    ⟨⟨0, "neutral", 1⟩, ⟨0.4, 1, 0.76, [], [], 0.7⟩, ⟨0.66, 0.7, 0.6, 0.7, []⟩⟩ (by decide)

/-- C3: any item with enough text whose bias analysis yields overall risk at
least 0.7 is rejected with the high bias/disinformation risk reason,
whatever the configuration, the sentiment result and the composite
confidence. -/
theorem high_risk_rejection_C3 (cfg : VerifierConfig) (item : ContentItem) (m : Option Unit)
    (hlen : 5 ≤ (trimT (extract_text_content item)).length)
    (hrisk : (0.7:ℚ) ≤
      (detect_bias_disinformation cfg (extract_text_content item)).overall_risk) :
    (verify_content_item cfg item m).ai_review.status = "rejected" ∧
    (verify_content_item cfg item m).ai_review.reason = "Alto risco de viés/desinformação" := by
  obtain ⟨hs, hr⟩ := verify_decision_char cfg item m hlen
  rw [hs, hr, if_pos hrisk, if_pos hrisk]
  exact ⟨rfl, rfl⟩

/-- C3 witness: with a configuration of four bias keywords and five
disinformation patterns all present in the text, the risk is 0.76 and the
item is rejected with the high-risk reason. -/
theorem high_risk_rejection_C3_witness :
    5 ≤ (trimT (extract_text_content
      ⟨some "w3", some "k1 k2 k3 k4 p1 p2 p3 p4 p5", none, none, none, none, none⟩)).length ∧
    (0.7:ℚ) ≤ (detect_bias_disinformation
      { default_verifier_config with
          bias_keywords := ["k1", "k2", "k3", "k4"]
          disinformation_patterns := ["p1", "p2", "p3", "p4", "p5"] }
      (extract_text_content
        ⟨some "w3", some "k1 k2 k3 k4 p1 p2 p3 p4 p5", none, none, none, none, none⟩)).overall_risk ∧
    (verify_content_item
      { default_verifier_config with
          bias_keywords := ["k1", "k2", "k3", "k4"]
          disinformation_patterns := ["p1", "p2", "p3", "p4", "p5"] }
      ⟨some "w3", some "k1 k2 k3 k4 p1 p2 p3 p4 p5", none, none, none, none, none⟩
      none).ai_review.status = "rejected" :=
  ⟨by decide, by decide,
    (high_risk_rejection_C3
      { default_verifier_config with
          bias_keywords := ["k1", "k2", "k3", "k4"]
          disinformation_patterns := ["p1", "p2", "p3", "p4", "p5"] }
      ⟨some "w3", some "k1 k2 k3 k4 p1 p2 p3 p4 p5", none, none, none, none, none⟩
      none (by decide) (by decide)).1⟩

/-- C4: for any item with enough text the final status is rejected exactly
when the bias overall risk is at least 0.7 and approved otherwise; the
threshold-branch reasons of _make_final_decision never occur, so the
composite confidence never influences the status. -/
theorem status_determined_by_risk_C4 (cfg : VerifierConfig) (item : ContentItem)
    (m : Option Unit) (hlen : 5 ≤ (trimT (extract_text_content item)).length) :
    ((verify_content_item cfg item m).ai_review.status = "rejected" ↔
      (0.7:ℚ) ≤ (detect_bias_disinformation cfg (extract_text_content item)).overall_risk) ∧
    ((verify_content_item cfg item m).ai_review.status = "approved" ↔
      ¬ (0.7:ℚ) ≤ (detect_bias_disinformation cfg (extract_text_content item)).overall_risk) ∧
    (verify_content_item cfg item m).ai_review.reason ≠
      "Aprovado com base na análise combinada" ∧
    (verify_content_item cfg item m).ai_review.reason ≠
      "Rejeitado com base na análise combinada" ∧
    (verify_content_item cfg item m).ai_review.reason ≠
      "Rejeitado por ambiguidade - política de segurança" := by
  obtain ⟨hs, hr⟩ := verify_decision_char cfg item m hlen
  by_cases h : (0.7:ℚ) ≤ (detect_bias_disinformation cfg (extract_text_content item)).overall_risk
  · rw [hs, hr, if_pos h, if_pos h]
    refine ⟨by simp [h], by simp [h], by decide, by decide, by decide⟩
  · rw [hs, hr, if_neg h, if_neg h]
    refine ⟨by simp [h], by simp [h], by decide, by decide, by decide⟩

/-- C4 witness: a benign item under the default configuration has risk below
0.7 and is approved. -/
theorem status_determined_by_risk_C4_witness :
    (verify_content_item default_verifier_config
      ⟨some "a", some "este produto é excelente e incrível, recomendo!",
        none, none, none, none, none⟩ none).ai_review.status = "approved" :=
  (status_determined_by_risk_C4 default_verifier_config
    ⟨some "a", some "este produto é excelente e incrível, recomendo!",
      none, none, none, none, none⟩ none (by decide)).2.1.mpr (by decide)

/-- C5: for every item that reaches confidence aggregation, the reported
final confidence equals sentiment confidence times 0.2 plus one minus the
bias overall risk times 0.3 plus the contextual confidence times 0.5, and
the recorded per-signal contribution breakdown sums exactly to it (exact
rational arithmetic models the floating tolerance). -/
theorem confidence_formula_C5 (cfg : VerifierConfig) (item : ContentItem) (m : Option Unit)
    (hlen : 5 ≤ (trimT (extract_text_content item)).length) :
    (verify_content_item cfg item m).ai_review.final_confidence =
      (analyze_sentiment (extract_text_content item)).confidence * 0.2 +
        (1 - (detect_bias_disinformation cfg (extract_text_content item)).overall_risk) * 0.3 +
        (analyze_context item m).contextual_confidence * 0.5 ∧
    ∀ bd : Breakdown,
      (verify_content_item cfg item m).ai_review.confidence_breakdown = some bd →
      bd.sentiment_contribution + bd.bias_contribution + bd.contextual_contribution =
        (verify_content_item cfg item m).ai_review.final_confidence := by
  rw [verify_content_item_eq_of_long cfg item m hlen]
  refine ⟨rfl, fun bd hbd => ?_⟩
  have hsome : some
      (⟨(analyze_sentiment (extract_text_content item)).confidence * 0.2,
        (1 - (detect_bias_disinformation cfg (extract_text_content item)).overall_risk) * 0.3,
        (analyze_context item m).contextual_confidence * 0.5⟩ : Breakdown) = some bd := hbd
  obtain rfl := Option.some.inj hsome
  rfl

/-- C5 witness: the breakdown of a concrete benign item, 1/5 plus 3/10 plus
33/100, sums to its final confidence 0.83. -/
theorem confidence_formula_C5_witness :
    (1:ℚ)/5 + 3/10 + 33/100 =
      (verify_content_item default_verifier_config
        ⟨some "a", some "este produto é excelente e incrível, recomendo!",
          none, none, none, none, none⟩ none).ai_review.final_confidence ∧
    (verify_content_item default_verifier_config
      ⟨some "a", some "este produto é excelente e incrível, recomendo!",
        none, none, none, none, none⟩ none).ai_review.final_confidence = 83/100 := by
  have h := confidence_formula_C5 default_verifier_config
    ⟨some "a", some "este produto é excelente e incrível, recomendo!",
      none, none, none, none, none⟩ none (by decide)
  refine ⟨h.2 ⟨1/5, 3/10, 33/100⟩ (by decide), by rw [h.1]; decide⟩

/-- C6: an item whose normalized text (the non-empty priority-field values,
space-joined and trimmed) is shorter than 5 characters is rejected with the
insufficient-content reason and final confidence 0, with every signal
extractor bypassed, and in the batch loop it is counted as a rejection (the
result carries no error flag and there is no error tally). -/
theorem insufficient_content_C6 :
    (∀ (cfg : VerifierConfig) (sA : List Char → Except String SentimentResult)
      (bA : List Char → Except String BiasResult)
      (cA : ContentItem → Option Unit → Except String ContextualResult)
      (item : ContentItem) (m : Option Unit),
      (trimT (extract_text_content item)).length < 5 →
      verify_content_item_x cfg sA bA cA item m = create_insufficient_content_result item) ∧
    (∀ (cfg : VerifierConfig) (item : ContentItem) (m : Option Unit),
      (trimT (extract_text_content item)).length < 5 →
      (verify_content_item cfg item m).ai_review.status = "rejected" ∧
      (verify_content_item cfg item m).ai_review.reason = "Conteúdo textual insuficiente" ∧
      (verify_content_item cfg item m).ai_review.final_confidence = 0 ∧
      (verify_content_item cfg item m).sentiment_analysis = none ∧
      (verify_content_item cfg item m).bias_disinformation_analysis = none ∧
      (verify_content_item cfg item m).contextual_analysis = none ∧
      (verify_content_item cfg item m).ai_review.insufficient_content = true ∧
      (verify_content_item cfg item m).ai_review.error = false) ∧
    (∀ (cfg : VerifierConfig) (idx : Nat) (w : WebItem) (ws : List WebItem),
      (trimT (extract_text_content (toVerifItem idx w))).length < 5 →
      verifyAllAux cfg idx (w :: ws) =
        ((verifyAllAux cfg (idx + 1) ws).1, w :: (verifyAllAux cfg (idx + 1) ws).2)) := by
  have hx : ∀ (cfg : VerifierConfig) (sA : List Char → Except String SentimentResult)
      (bA : List Char → Except String BiasResult)
      (cA : ContentItem → Option Unit → Except String ContextualResult)
      (item : ContentItem) (m : Option Unit),
      (trimT (extract_text_content item)).length < 5 →
      verify_content_item_x cfg sA bA cA item m = create_insufficient_content_result item := by
    intro cfg sA bA cA item m h
    unfold verify_content_item_x
    exact if_pos (Or.inr h)
  refine ⟨hx, fun cfg item m h => ?_, fun cfg idx w ws h => ?_⟩
  · have he : verify_content_item cfg item m = create_insufficient_content_result item :=
      hx cfg _ _ _ item m h
    rw [he]
    exact ⟨rfl, rfl, rfl, rfl, rfl, rfl, rfl, rfl⟩
  · have he : verify_content_item cfg (toVerifItem idx w) none =
        create_insufficient_content_result (toVerifItem idx w) :=
      hx cfg _ _ _ (toVerifItem idx w) none h
    simp only [verifyAllAux]
    rw [he]
    rw [if_neg (of_decide_eq_false rfl :
      ¬(create_insufficient_content_result (toVerifItem idx w)).ai_review.status = "approved")]

/-- C6 witness: a web item whose title is the single character a yields
normalized text of length 3, is rejected as insufficient content with
confidence 0, and lands in the rejected bucket of the batch split. -/
theorem insufficient_content_C6_witness :
    (trimT (extract_text_content (toVerifItem 0 ⟨"a", "u", ""⟩))).length < 5 ∧
    (verify_content_item default_verifier_config (toVerifItem 0 ⟨"a", "u", ""⟩)
      none).ai_review.reason = "Conteúdo textual insuficiente" ∧
    verifyAllAux default_verifier_config 0 [⟨"a", "u", ""⟩] = ([], [⟨"a", "u", ""⟩]) := by
  refine ⟨by decide, (insufficient_content_C6.2.1 default_verifier_config
    (toVerifItem 0 ⟨"a", "u", ""⟩) none (by decide)).2.1, ?_⟩
  rw [insufficient_content_C6.2.2 default_verifier_config 0 ⟨"a", "u", ""⟩ [] (by decide)]
  rfl

/-- C7 counterexample: on a concrete item, a failing bias extractor does not
default that signal to the neutral 0.5 values — the item gets the error
result with final confidence 0 and no recorded bias analysis, which differs
from the result the claimed neutral defaulting would produce (final
confidence 27/50). -/
theorem extractor_failure_C7_counterexample :
    (verify_content_item_x default_verifier_config
      (fun t => Except.ok (analyze_sentiment t))
      (fun _ => Except.error "falha no detector")
      (fun i mm => Except.ok (analyze_context i mm))
      ⟨some "c7", some "conteudo de teste suficiente", none, none, none, none, none⟩
      none).ai_review.final_confidence = 0 ∧
    (verify_content_item_x default_verifier_config
      (fun t => Except.ok (analyze_sentiment t))
      (fun _ => Except.error "falha no detector")
      (fun i mm => Except.ok (analyze_context i mm))
      ⟨some "c7", some "conteudo de teste suficiente", none, none, none, none, none⟩
      none).bias_disinformation_analysis = none ∧
    (verify_content_item_x default_verifier_config
      (fun t => Except.ok (analyze_sentiment t))
      (fun _ => Except.ok ⟨0, 0, 0.5, [], [], 0.5⟩)
      (fun i mm => Except.ok (analyze_context i mm))
      ⟨some "c7", some "conteudo de teste suficiente", none, none, none, none, none⟩
      none).ai_review.final_confidence = 27/50 ∧
    verify_content_item_x default_verifier_config
      (fun t => Except.ok (analyze_sentiment t))
      (fun _ => Except.error "falha no detector")
      (fun i mm => Except.ok (analyze_context i mm))
      ⟨some "c7", some "conteudo de teste suficiente", none, none, none, none, none⟩ none ≠
    verify_content_item_x default_verifier_config
      (fun t => Except.ok (analyze_sentiment t))
      (fun _ => Except.ok ⟨0, 0, 0.5, [], [], 0.5⟩)
      (fun i mm => Except.ok (analyze_context i mm))
      ⟨some "c7", some "conteudo de teste suficiente", none, none, none, none, none⟩ none := by
  decide

/-- C7 amended: when an extractor raises, the item receives the error result
— status rejected, reason Erro plus the message, final confidence 0, error
flag set, and no signal results recorded — instead of a neutral-defaulted
signal; since its status is rejected it is counted as a rejection and batch
processing continues. -/
theorem extractor_failure_error_result_C7 (cfg : VerifierConfig) (item : ContentItem)
    (m : Option Unit) (msg : String)
    (hlen : 5 ≤ (trimT (extract_text_content item)).length) :
    verify_content_item_x cfg (fun t => Except.ok (analyze_sentiment t))
      (fun _ => Except.error msg) (fun i mm => Except.ok (analyze_context i mm)) item m =
      create_error_result item msg ∧
    (create_error_result item msg).ai_review.status = "rejected" ∧
    (create_error_result item msg).ai_review.reason = "Erro: " ++ msg ∧
    (create_error_result item msg).ai_review.final_confidence = 0 ∧
    (create_error_result item msg).ai_review.error = true ∧
    (create_error_result item msg).bias_disinformation_analysis = none := by
  refine ⟨?_, rfl, rfl, rfl, rfl, rfl⟩
  unfold verify_content_item_x
  rw [if_neg (not_short_of_long hlen)]

/-- C7 amended witness: the error result on a concrete item with a failing
bias extractor. -/
theorem extractor_failure_error_result_C7_witness :
    verify_content_item_x default_verifier_config
      (fun t => Except.ok (analyze_sentiment t))
      (fun _ => Except.error "falha")
      (fun i mm => Except.ok (analyze_context i mm))
      ⟨some "c7b", some "texto longo o bastante", none, none, none, none, none⟩ none =
      create_error_result
        ⟨some "c7b", some "texto longo o bastante", none, none, none, none, none⟩ "falha" :=
  (extractor_failure_error_result_C7 default_verifier_config
    ⟨some "c7b", some "texto longo o bastante", none, none, none, none, none⟩
    none "falha" (by decide)).1

/-- C8: every path of the pipeline reports a final confidence in the unit
interval: the full per-item verification (insufficient-content, rule and
threshold paths) for any configuration and item, and the error result,
whose final confidence is 0. -/
theorem final_confidence_in_unit_interval_C8 :
    (∀ (cfg : VerifierConfig) (item : ContentItem) (m : Option Unit),
      0 ≤ (verify_content_item cfg item m).ai_review.final_confidence ∧
      (verify_content_item cfg item m).ai_review.final_confidence ≤ 1) ∧
    (∀ (item : ContentItem) (msg : String),
      (create_error_result item msg).ai_review.final_confidence = 0) ∧
    (∀ item : ContentItem,
      (create_insufficient_content_result item).ai_review.final_confidence = 0) := by
  refine ⟨fun cfg item m => ?_, fun item msg => rfl, fun item => rfl⟩
  by_cases h : 5 ≤ (trimT (extract_text_content item)).length
  · rw [verify_content_item_eq_of_long cfg item m h]
    dsimp only
    rw [make_final_decision_confidence]
    dsimp only
    obtain ⟨hs0, hs1⟩ := analyze_sentiment_confidence_bounds (extract_text_content item)
    obtain ⟨hb0, hb1⟩ := overall_risk_bounds cfg (extract_text_content item)
    have hc : (analyze_context item m).contextual_confidence = 0.66 := by
      norm_num [analyze_context]
    rw [hc]
    constructor <;> nlinarith
  · have he : verify_content_item cfg item m = create_insufficient_content_result item := by
      unfold verify_content_item verify_content_item_x
      apply if_pos
      right
      omega
    rw [he]
    exact ⟨le_refl 0, by norm_num [create_insufficient_content_result]⟩

/-- C9 counterexample: a concrete two-item batch run through the pipeline —
the first item approved with bias risk 0.64 above 0.6, the second rejected —
yields a compiled issue list in which a high-bias entry precedes a rejection
entry, so rejection-reason entries are not ranked before high-bias-risk
entries. -/
theorem main_issues_C9_counterexample :
    (verify_content_item
      { default_verifier_config with
          bias_keywords := ["k1", "k2", "k3", "k4"]
          disinformation_patterns := ["p1", "p2", "p3", "p4", "p5"] }
      ⟨some "i1", some "k1 k2 k3 k4 p1 p2 p3 p4", none, none, none, none, none⟩
      none).ai_review.status = "approved" ∧
    (0.6:ℚ) < riskOf (verify_content_item
      { default_verifier_config with
          bias_keywords := ["k1", "k2", "k3", "k4"]
          disinformation_patterns := ["p1", "p2", "p3", "p4", "p5"] }
      ⟨some "i1", some "k1 k2 k3 k4 p1 p2 p3 p4", none, none, none, none, none⟩ none) ∧
    (verify_content_item
      { default_verifier_config with
          bias_keywords := ["k1", "k2", "k3", "k4"]
          disinformation_patterns := ["p1", "p2", "p3", "p4", "p5"] }
      ⟨some "i2", some "k1 k2 k3 k4 p1 p2 p3 p4 p5", none, none, none, none, none⟩
      none).ai_review.status = "rejected" ∧
    rejectionsRankedFirst (identify_main_issues
      [verify_content_item
        { default_verifier_config with
            bias_keywords := ["k1", "k2", "k3", "k4"]
            disinformation_patterns := ["p1", "p2", "p3", "p4", "p5"] }
        ⟨some "i1", some "k1 k2 k3 k4 p1 p2 p3 p4", none, none, none, none, none⟩ none,
       verify_content_item
        { default_verifier_config with
            bias_keywords := ["k1", "k2", "k3", "k4"]
            disinformation_patterns := ["p1", "p2", "p3", "p4", "p5"] }
        ⟨some "i2", some "k1 k2 k3 k4 p1 p2 p3 p4 p5", none, none, none, none, none⟩ none])
      = false := by
  decide

/-- C9 amended: the compiled issue list holds at most 10 entries, every
entry arises from a rejected result or from a result whose bias overall
risk exceeds 0.6, the untruncated list has a rejection entry for every
rejected result, and a rejection entry precedes the high-bias entry only
within one result; entries follow result order, so rejection entries are
not globally ranked before high-bias entries. -/
theorem main_issues_C9 :
    (∀ results : List ItemVerification, (identify_main_issues results).length ≤ 10) ∧
    (∀ (results : List ItemVerification) (e : Issue), e ∈ identify_main_issues results →
      (∃ r, r ∈ results ∧ r.ai_review.status = "rejected" ∧
        e = Issue.rejection r.item_id r.ai_review.reason r.ai_review.final_confidence) ∨
      (∃ r, r ∈ results ∧ (0.6:ℚ) < riskOf r ∧
        e = Issue.high_bias_risk r.item_id (riskOf r) (detectedOf r))) ∧
    (∀ (results : List ItemVerification) (r : ItemVerification), r ∈ results →
      r.ai_review.status = "rejected" →
      Issue.rejection r.item_id r.ai_review.reason r.ai_review.final_confidence ∈
        issuesList results) ∧
    (∀ r : ItemVerification, rejectionsRankedFirst (item_issues r) = true) := by
  refine ⟨fun results => List.length_take_le 10 _, fun results e he => ?_,
    fun results r hr hst => ?_, fun r => ?_⟩
  · have he2 : e ∈ issuesList results := List.take_subset 10 _ he
    clear he
    induction results with
    | nil => simp [issuesList] at he2
    | cons r rs ih =>
      simp only [issuesList] at he2
      rcases List.mem_append.1 he2 with h | h
      · unfold item_issues at h
        rcases List.mem_append.1 h with h1 | h1
        · by_cases hst : r.ai_review.status = "rejected"
          · rw [if_pos hst] at h1
            rcases List.mem_singleton.1 h1 with rfl
            exact Or.inl ⟨r, List.mem_cons_self r rs, hst, rfl⟩
          · rw [if_neg hst] at h1
            exact absurd h1 (List.not_mem_nil _)
        · by_cases hrk : (0.6:ℚ) < riskOf r
          · rw [if_pos hrk] at h1
            rcases List.mem_singleton.1 h1 with rfl
            exact Or.inr ⟨r, List.mem_cons_self r rs, hrk, rfl⟩
          · rw [if_neg hrk] at h1
            exact absurd h1 (List.not_mem_nil _)
      · rcases ih h with ⟨r', hr', hst', he'⟩ | ⟨r', hr', hrk', he'⟩
        · exact Or.inl ⟨r', List.mem_cons_of_mem r hr', hst', he'⟩
        · exact Or.inr ⟨r', List.mem_cons_of_mem r hr', hrk', he'⟩
  · induction results with
    | nil => exact absurd hr (List.not_mem_nil r)
    | cons r0 rs ih =>
      rcases List.mem_cons.1 hr with rfl | hmem
      · simp only [issuesList]
        refine List.mem_append_left _ ?_
        unfold item_issues
        rw [if_pos hst]
        exact List.mem_append_left _ (List.mem_singleton.2 rfl)
      · simp only [issuesList]
        exact List.mem_append_right _ (ih hmem)
  · unfold item_issues
    by_cases hst : r.ai_review.status = "rejected" <;>
      by_cases hrk : (0.6:ℚ) < riskOf r <;>
        simp [hst, hrk, rejectionsRankedFirst]

/-- C9 amended witness: a single rejected result contributes its rejection
entry to the issue list. -/
theorem main_issues_C9_witness :
    Issue.rejection "w9" "motivo" 0.2 ∈ issuesList
      [⟨"w9", none, none, none, ⟨"rejected", "motivo", 0.2, none, false, false⟩⟩] :=
  main_issues_C9.2.2.1
    [⟨"w9", none, none, none, ⟨"rejected", "motivo", 0.2, none, false, false⟩⟩]
    ⟨"w9", none, none, none, ⟨"rejected", "motivo", 0.2, none, false, false⟩⟩
    (List.mem_singleton.2 rfl) rfl

/-- C10: the default contextual analyzer is a constant function — any two
calls agree, the result is always consistency 0.7, reliability 0.6,
temporal coherence 0.7, contextual confidence 0.66 with no flags — so the
contextual term contributes exactly 0.33 to every analyzed item's composite
confidence and neither the item nor the batch context ever affects it. -/
theorem contextual_analyzer_constant_C10 :
    (∀ (i1 : ContentItem) (m1 : Option Unit) (i2 : ContentItem) (m2 : Option Unit),
      analyze_context i1 m1 = analyze_context i2 m2) ∧
    (∀ (i : ContentItem) (m : Option Unit),
      analyze_context i m =
        { contextual_confidence := 0.66, consistency_score := 0.7,
          source_reliability_score := 0.6, temporal_coherence_score := 0.7,
          context_flags := [] }) ∧
    (∀ (i : ContentItem) (m : Option Unit),
      (analyze_context i m).contextual_confidence * 0.5 = 0.33) ∧
    (∀ (cfg : VerifierConfig) (item : ContentItem) (m : Option Unit),
      5 ≤ (trimT (extract_text_content item)).length →
      ∃ bd : Breakdown,
        (verify_content_item cfg item m).ai_review.confidence_breakdown = some bd ∧
        bd.contextual_contribution = 0.33) := by
  have hconst : ∀ (i : ContentItem) (m : Option Unit),
      analyze_context i m =
        { contextual_confidence := 0.66, consistency_score := 0.7,
          source_reliability_score := 0.6, temporal_coherence_score := 0.7,
          context_flags := [] } := by
    intro i m
    unfold analyze_context
    norm_num
  refine ⟨fun i1 m1 i2 m2 => (hconst i1 m1).trans (hconst i2 m2).symm, hconst,
    fun i m => by rw [hconst]; norm_num, fun cfg item m h => ?_⟩
  rw [verify_content_item_eq_of_long cfg item m h]
  refine ⟨⟨(analyze_sentiment (extract_text_content item)).confidence * 0.2,
    (1 - (detect_bias_disinformation cfg (extract_text_content item)).overall_risk) * 0.3,
    (analyze_context item m).contextual_confidence * 0.5⟩, rfl, ?_⟩
  rw [hconst]
  norm_num

/-- C10 witness: a concrete item whose recorded contextual contribution is
exactly 0.33. -/
theorem contextual_analyzer_constant_C10_witness :
    ∃ bd : Breakdown,
      (verify_content_item default_verifier_config
        ⟨some "a", some "este produto é excelente e incrível, recomendo!",
          none, none, none, none, none⟩ none).ai_review.confidence_breakdown = some bd ∧
      bd.contextual_contribution = 0.33 :=
  contextual_analyzer_constant_C10.2.2.2 default_verifier_config
    ⟨some "a", some "este produto é excelente e incrível, recomendo!",
      none, none, none, none, none⟩ none (by decide)

end ProjV81
